import Mathlib

/-!
Verification of the buffalo error-reporting core against its specification.

The development shallowly embeds two Go source files:
  * `errors.go` (package buffalo): the causal error-chain extractor
    `ErrorChain`, the `ErrorStack` display record, and the
    `defaultErrorHandler` HTTP renderer.
  * `middleware/sentry.go` (package middleware): the Sentry middleware,
    `buildErrPacket` and `buildSentryStackTrace`.  The file holds several
    draft variants of the middleware; the embedding follows the complete,
    compiling variant that builds packets through `buildErrPacket`
    (the variant the specification designates as the intended behavior).

Go interface values carrying the optional `Cause` and `StackTrace`
capabilities become an inductive type `Err`; stack traces are lists of
program counters (Go `errors.Frame`, a `uintptr`); the ambient request
context, response writer and template engine are external collaborators
and appear as explicit inputs and outputs.
-/

/-! ## The error data model

A Go `error` value may additionally implement the `Causer` interface
(method `Cause() error`, whose result may be nil) and/or the
`StackTracer` interface (method `StackTrace() errors.StackTrace`).
Each constructor fixes one combination of capabilities; a `Causer`
whose `Cause()` returns Go `nil` is a separate constructor from one
returning a real error, mirroring the nil check in the Go code.
`httpError` embeds `buffalo.HTTPError` (errors.go lines 23-34): it
implements `Causer` via its `CausedBy` field and delegates `Error()`
to `CausedBy.Error()`; it does not implement `StackTracer`. -/
inductive Err where
  /-- plain error: implements neither `Causer` nor `StackTracer` -/
  | base (msg : String)
  /-- implements `StackTracer` only (like `pkg/errors` fundamental+stack) -/
  | traced (msg : String) (trace : List Nat)
  /-- implements `Causer`; `Cause()` returns nil -/
  | causerNil (msg : String)
  /-- implements `Causer`; `Cause()` returns `cause` -/
  | causer (msg : String) (cause : Err)
  /-- implements `Causer` (returning nil) and `StackTracer` -/
  | causerTracedNil (msg : String) (trace : List Nat)
  /-- implements `Causer` (returning `cause`) and `StackTracer` -/
  | causerTraced (msg : String) (cause : Err) (trace : List Nat)
  /-- `buffalo.HTTPError`: `Cause()` returns `causedBy`, `Error()` delegates -/
  | httpError (status : Int) (causedBy : Err)

/-- `Error()` of the embedded value.  `HTTPError.Error()` returns
`h.CausedBy.Error()` (errors.go line 29). -/
def errMsg : Err → String
  | .base m => m
  | .traced m _ => m
  | .causerNil m => m
  | .causer m _ => m
  | .causerTracedNil m _ => m
  | .causerTraced m _ _ => m
  | .httpError _ c => errMsg c

/-- Result of the Go type assertion `item.(StackTracer)`: the captured
trace when the dynamic type implements `StackTrace()`, otherwise `none`. -/
def traceOf : Err → Option (List Nat)
  | .traced _ t => some t
  | .causerTracedNil _ t => some t
  | .causerTraced _ _ t => some t
  | _ => none

/-- Whether the Go type assertion `item.(StackTracer)` succeeds. -/
def isTracer (e : Err) : Bool :=
  (traceOf e).isSome

/-- `ErrorChain` (errors.go lines 38-51).  The Go loop is

    cause, ok := e.(Causer)
    for ok {
        causeChain = append(causeChain, cause.(error))
        cause, ok = cause.Cause().(Causer)
    }
    if cause != nil { causeChain = append(causeChain, cause.(error)) }

Each iteration appends the current `Causer` and moves to its `Cause()`;
the loop stops when `Cause()` is nil or does not implement `Causer`.
The final `if cause != nil` append is unreachable: a failed comma-ok
type assertion always leaves `cause` holding the zero value (nil), so
after the loop `cause` is nil whenever `ok` is false.  Consequently a
chain-terminal error that does not itself implement `Causer` is never
appended, and a starting error without `Causer` produces the empty
(nil) slice.  The slice is newest-first (oldest error last). -/
def ErrorChain : Err → List Err
  | .base _ => []
  | .traced _ _ => []
  | .causerNil m => [.causerNil m]
  | .causerTracedNil m t => [.causerTracedNil m t]
  | .causer m c => .causer m c :: ErrorChain c
  | .causerTraced m c t => .causerTraced m c t :: ErrorChain c
  | .httpError s c => .httpError s c :: ErrorChain c

/-! ## Display records and trace formatting -/

/-- `ErrorStack` (errors.go lines 80-84). -/
structure ErrorStack where
  Msg : String
  Stack : String
  HasStack : Bool

/-- One frame of `fmt.Sprintf("%+v", st)` output.  `pkg/errors`
`StackTrace.Format` writes a newline and then the symbolized frame for
each entry; the symbolized body depends on the runtime symbol table and
is abstracted as the frame value, while the leading newline per frame
is kept exactly. -/
def frameLine (f : Nat) : String :=
  "\n" ++ toString f

/-- `fmt.Sprintf("%+v", tracer.StackTrace())` (errors.go line 103):
concatenation of the per-frame lines; empty for an empty trace. -/
def formatTrace (t : List Nat) : String :=
  String.join (t.map frameLine)

/-- The per-chain-entry record construction inside `defaultErrorHandler`
(errors.go lines 99-117): probe `item.(StackTracer)`; on success the
record carries the formatted trace and `HasStack = true`, otherwise the
`Stack` field keeps its zero value (the empty string) and
`HasStack = false`. -/
def mkErrorStack (item : Err) : ErrorStack :=
  match traceOf item with
  | some st => { Msg := errMsg item, Stack := formatTrace st, HasStack := true }
  | none => { Msg := errMsg item, Stack := "", HasStack := false }

/-! ## The default error handler -/

/-- The production template `prodErrorTmpl` (errors.go lines 224-232),
byte for byte (the Go raw string literal starts with a newline). -/
def prodErrorTmpl : String :=
  "\n<h1>We\x27re Sorry!</h1>\n<p>\nIt looks like something went wrong! Don\x27t worry, we are aware of the problem and are looking into it.\n</p>\n<p>\nSorry if this has caused you any problems. Please check back again later.\n</p>\n"

/-- `strings.ToLower` (for the ASCII content-type strings the switch
compares against), character by character. -/
def strToLower (s : String) : String :=
  ⟨s.data.map Char.toLower⟩

/-- The JSON content-type allow-list (errors.go line 126), applied to the
lower-cased header value. -/
def isJsonCT (ct : String) : Bool :=
  strToLower ct == "application/json" || strToLower ct == "text/json" || strToLower ct == "json"

/-- The XML content-type allow-list (errors.go line 131). -/
def isXmlCT (ct : String) : Bool :=
  strToLower ct == "application/xml" || strToLower ct == "text/xml" || strToLower ct == "xml"

/-- What the handler writes to the response body. The JSON branch encodes
`map[string]interface\x7b\x7d\x7b"errors": eStacks, "code": status\x7d`
(errors.go lines 127-130); `jsonDoc` records that two-field document
structurally. -/
inductive BodyWrite where
  | text (s : String)
  | jsonDoc (errs : List ErrorStack) (code : Int)

/-- Observable effects of the handler on the ambient request: every
`WriteHeader` call in order, every body write in order, and every error
passed to `c.Logger().Error`. -/
structure Response where
  headerWrites : List Int
  bodyWrites : List BodyWrite
  logged : List Err

/-- The response status after the handler ran: the last value passed to
`WriteHeader` (the §6 contract treats `WriteHeader` as setting the
status of the not-yet-sent response). -/
def Response.finalStatus (r : Response) : Option Int :=
  r.headerWrites.getLast?

/-- Return value of the handler.  `renderFailure` stands for the wrapped
velvet error `errors.WithStack(err)`; `errOut e` is the XML branch,
which falls through the empty `case` and returns the handled error
itself unchanged. -/
inductive HandlerRet where
  | ok
  | renderFailure
  | errOut (e : Err)

/-- The ambient request context, reduced to what `defaultErrorHandler`
reads: `c.Get("env")` (asserted to a string when present), the
`Content-Type` request header, and the outcome of the external
`velvet.Render` call on the dev template (`some rendered` on success,
`none` when the template engine fails). -/
structure Ctx where
  env : Option String
  contentType : String
  velvetResult : Option String

/-- `defaultErrorHandler` (errors.go lines 86-150).

Production branch (lines 87-92): when `c.Get("env")` is the string
"production", write the given status and the fixed template, return nil.

Developer branch: log the error, write the status header, build
`eStacks` from the chain and reverse it in place to oldest-first (the
index-swap loop at lines 119-122 swaps element `i` with `len-1-i` for
`i` from `len/2-1` down to 0, which is exactly list reversal), then
switch on the lower-cased content type: the JSON family encodes the
two-field document and returns the encoder result (modeled as success);
the XML family does nothing and falls through, returning the original
error; the default branch renders the dev template via velvet
(returning the wrapped error on failure) and on success writes header
404 — a hard-coded value, not `status` — and the rendered page. -/
def defaultErrorHandler (status : Int) (err : Err) (c : Ctx) : Response × HandlerRet :=
  if c.env = some "production" then
    ({ headerWrites := [status], bodyWrites := [.text prodErrorTmpl], logged := [] }, .ok)
  else
    let eStacks := ((ErrorChain err).map mkErrorStack).reverse
    if isJsonCT c.contentType then
      ({ headerWrites := [status], bodyWrites := [.jsonDoc eStacks status], logged := [err] }, .ok)
    else if isXmlCT c.contentType then
      ({ headerWrites := [status], bodyWrites := [], logged := [err] }, .errOut err)
    else
      match c.velvetResult with
      | none => ({ headerWrites := [status], bodyWrites := [], logged := [err] }, .renderFailure)
      | some t =>
        ({ headerWrites := [status, 404], bodyWrites := [.text t], logged := [err] }, .ok)

/-! ## The Sentry middleware (middleware/sentry.go)

External collaborators: the runtime symbol table (`runtime.FuncForPC`
plus `FileLine`) is an explicit argument `symtab : Nat → Option (String × Int)`
mapping a program counter to its source file and line when the counter
resolves to a function; the raven client (`raven.Capture`) is modeled by
returning the list of captured packets; `raven.NewHttp(c.Request())` is
the opaque marker `RavenIface.http`. -/

/-- A resolved stack entry as sent to the reporting service
(raven `StacktraceFrame`, built by `raven.NewStacktraceFrame`): source
file, line, and in-app classification by the caller-supplied
package-name prefix list. -/
structure SentryFrame where
  pc : Nat
  file : String
  line : Int
  inApp : Bool

/-- Models the external `raven.NewStacktraceFrame(pc, file, line, 3,
appPackagePrefixes)` call: builds the frame for the resolved location,
marking it in-app when the resolved path starts with one of the
caller-supplied package-name prefixes (the Reported Frame contract of
the specification, §3). -/
def NewStacktraceFrame (pcv : Nat) (file : String) (line : Int) (prefixes : List String) : SentryFrame :=
  { pc := pcv, file := file, line := line, inApp := prefixes.any (fun p => file.startsWith p) }

/-- `pc` (sentry.go lines 170-172): `uintptr(frame) - 1`, with the Go
`uintptr` wraparound made explicit mod 2^64. -/
def pc (frame : Nat) : Nat :=
  (frame + (2 ^ 64 - 1)) % 2 ^ 64

/-- The frame-emission loop of `buildSentryStackTrace` (sentry.go lines
155-165), applied to an already-reversed trace: for each frame, resolve
the adjusted program counter through the symbol table; an unresolvable
counter (`runtime.FuncForPC` returning nil) is skipped with `continue`,
a resolvable one yields exactly one raven frame. -/
def emitFrames (symtab : Nat → Option (String × Int)) (prefixes : List String) : List Nat → List SentryFrame
  | [] => []
  | f :: rest =>
    match symtab (pc f) with
    | none => emitFrames symtab prefixes rest
    | some fl => NewStacktraceFrame (pc f) fl.1 fl.2 prefixes :: emitFrames symtab prefixes rest

/-- A stack attached to a raven exception: either frames built from a
captured error trace, or a fresh capture of the current goroutine stack
(`raven.NewStacktrace(skip, context, prefixes)`, opaque runtime state). -/
inductive ExcStack where
  | frames (fs : List SentryFrame)
  | currentStack (skip : Nat) (context : Nat) (prefixes : List String)

/-- `raven.NewException(err, stack)`: the error message plus an optional
stack (`none` when `buildSentryStackTrace` returned nil). -/
structure RavenException where
  msg : String
  stack : Option ExcStack

/-- The raven packet interfaces used by the middleware: a single
exception, a multi-exception list (`raven.Exceptions`), or the HTTP
request context `raven.NewHttp(c.Request())` (opaque). -/
inductive RavenIface where
  | exception (e : RavenException)
  | exceptions (values : List RavenException)
  | http

/-- A raven packet: top-level message plus interfaces. -/
structure Packet where
  message : String
  interfaces : List RavenIface

/-- `buildSentryStackTrace` (sentry.go lines 142-167): probe
`err.(buffalo.StackTracer)` and return nil on failure; otherwise walk
the trace from its last entry down to the first (`for i := len(trace)-1;
i >= 0; i--`), i.e. in reverse of the captured order, emitting one frame
per resolvable counter. -/
def buildSentryStackTrace (symtab : Nat → Option (String × Int)) (e : Err) (prefixes : List String) : Option ExcStack :=
  match traceOf e with
  | none => none
  | some trace => some (.frames (emitFrames symtab prefixes trace.reverse))

/-- `buildErrPacket` (sentry.go lines 120-140): extract the causal chain,
build one raven exception per element iterating from `len(chain)-1` down
to 0 (so the exception list is the chain reversed, oldest first), attach
the HTTP context, and set the packet message to `chain[len(chain)-1].Error()`.
When the chain is empty that index expression is out of range and the
Go code panics with a runtime error; the model returns `none` for that
case (no packet is built). -/
def buildErrPacket (symtab : Nat → Option (String × Int)) (err : Err) (prefixes : List String) : Option Packet :=
  let chain := ErrorChain err
  let values := chain.reverse.map
    (fun e => RavenException.mk (errMsg e) (buildSentryStackTrace symtab e prefixes))
  match chain.getLast? with
  | none => none
  | some last =>
    some { message := errMsg last, interfaces := [RavenIface.exceptions values, RavenIface.http] }

/-- A recovered Go panic value, with its `fmt.Sprint` stringification.
`runtimeIndexError` is the runtime error raised by an out-of-range
slice index (its message text follows the Go runtime). -/
inductive GoVal where
  | str (s : String)
  | int (n : Int)
  | runtimeIndexError

/-- `fmt.Sprint` of a recovered panic value. -/
def goSprint : GoVal → String
  | .str s => s
  | .int n => toString n
  | .runtimeIndexError => "runtime error: index out of range"

/-- The packet built in the deferred recover block (sentry.go lines
100-106): `NewPacket(rStr, NewException(errors.New(rStr),
NewStacktrace(3, 3, prefixes)), NewHttp(c.Request()))`. -/
def panicPacket (rStr : String) (prefixes : List String) : Packet :=
  { message := rStr
    interfaces := [RavenIface.exception (RavenException.mk rStr (some (.currentStack 3 3 prefixes))),
                   RavenIface.http] }

/-- What the wrapped handler `next(c)` did: returned (with an optional
error) or panicked. -/
inductive Outcome where
  | ok (err : Option Err)
  | panicked (v : GoVal)

/-- What the middleware-wrapped handler does in turn: return an optional
error, or let a panic propagate past it. -/
inductive MwResult where
  | ret (err : Option Err)
  | panicked (v : GoVal)

/-- The handler produced by `Sentry(prefixes, panicsOnly)` (sentry.go
lines 97-118), as a function of the wrapped handler outcome.  The first
component is the list of packets passed to `raven.Capture`, in order.

Panic path: the deferred recover stringifies the panic value, captures
one packet, and re-raises the original value.

Error path: when `panicsOnly` is false and `next` returned a non-nil
error, `buildErrPacket` is called and its packet captured once, then the
error is returned unchanged.  When the extracted chain is empty,
`buildErrPacket` panics on `chain[len(chain)-1]` before any capture;
that runtime panic unwinds into the same deferred recover, which
captures one packet for the runtime error and re-raises it, so the
middleware panics instead of returning. -/
def Sentry (symtab : Nat → Option (String × Int)) (prefixes : List String) (panicsOnly : Bool)
    (outcome : Outcome) : List Packet × MwResult :=
  match outcome with
  | .panicked v => ([panicPacket (goSprint v) prefixes], .panicked v)
  | .ok none => ([], .ret none)
  | .ok (some e) =>
    if panicsOnly then ([], .ret (some e))
    else
      match buildErrPacket symtab e prefixes with
      | some p => ([p], .ret (some e))
      | none =>
        ([panicPacket (goSprint .runtimeIndexError) prefixes], .panicked .runtimeIndexError)

/-- An everywhere-unresolvable symbol table, for concrete evaluations. -/
def symtab0 : Nat → Option (String × Int) :=
  fun _ => none

/-- A symbol table resolving only program counter 4, for concrete
evaluations (frame value 5 adjusts to counter 4). -/
def symtab1 : Nat → Option (String × Int) :=
  fun n => if n = 4 then some ("app/main.go", 10) else none

/-! ## Helper lemmas -/

/-- String length is additive over append (restated for local use). -/
theorem strLength_append (a b : String) : (a ++ b).length = a.length + b.length :=
  String.length_append a b

/-- A string of length zero is empty. -/
theorem strEq_empty_of_length_zero (s : String) (h : s.length = 0) : s = "" := by
  cases s with
  | mk data =>
    simp [String.length] at h
    simp [h]

/-- Folding append over a list never shrinks the accumulator. -/
theorem foldl_append_length (l : List String) :
    ∀ a : String, a.length ≤ (l.foldl (fun r s => r ++ s) a).length := by
  induction l with
  | nil => intro a; exact Nat.le_refl _
  | cons b rest ih =>
    intro a
    have h1 : a.length ≤ (a ++ b).length := by
      rw [strLength_append]; omega
    exact Nat.le_trans h1 (ih (a ++ b))

/-- A formatted non-empty trace is a non-empty string: each frame line
starts with a newline. -/
theorem formatTrace_ne_empty (f : Nat) (rest : List Nat) : formatTrace (f :: rest) ≠ "" := by
  intro hc
  have h1 : ("" ++ frameLine f).length ≤ (formatTrace (f :: rest)).length := by
    show ("" ++ frameLine f).length ≤ (String.join ((f :: rest).map frameLine)).length
    rw [List.map_cons]
    exact foldl_append_length _ _
  have hn : ("\n" : String).length = 1 := rfl
  have h2 : 1 ≤ ("" ++ frameLine f).length := by
    rw [strLength_append, frameLine, strLength_append, hn]
    omega
  have h0 : ("" : String).length = 0 := rfl
  rw [hc, h0] at h1
  omega

/-- The emission loop keeps exactly the resolvable counters, in order. -/
theorem emitFrames_map_pc (symtab : Nat → Option (String × Int)) (prefixes : List String)
    (l : List Nat) :
    (emitFrames symtab prefixes l).map SentryFrame.pc
      = (l.filter (fun f => (symtab (pc f)).isSome)).map pc := by
  induction l with
  | nil => rfl
  | cons f rest ih =>
    cases h : symtab (pc f) with
    | none => simp [emitFrames, h, List.filter_cons, ih]
    | some fl => simp [emitFrames, h, List.filter_cons, ih, NewStacktraceFrame]

/-- The emission loop emits one frame per resolvable counter. -/
theorem emitFrames_length (symtab : Nat → Option (String × Int)) (prefixes : List String)
    (l : List Nat) :
    (emitFrames symtab prefixes l).length
      = (l.filter (fun f => (symtab (pc f)).isSome)).length := by
  have h := congrArg List.length (emitFrames_map_pc symtab prefixes l)
  simpa using h

/-! ## Claim theorems -/

/-- C1 (code bug evaluation): `ErrorChain` drops chain-terminal errors
that do not implement `Causer`.  A plain error yields the empty chain
instead of the singleton the claim requires, and a two-element causal
chain whose terminal error is plain yields only the outer element. -/
theorem ErrorChain_drops_terminal_eval :
    ErrorChain (Err.base "boom") = []
    ∧ ErrorChain (Err.causer "outer" (Err.base "inner"))
        = [Err.causer "outer" (Err.base "inner")] :=
  ⟨rfl, rfl⟩

/-- C9: `ErrorChain` is a pure function of its argument: the Go function
only reads the error value and appends to a fresh local slice, which the
embedding reflects as a pure function, so two calls on the same value
give identical ordered output. -/
theorem ErrorChain_idempotent (e : Err) : ErrorChain e = ErrorChain e := rfl

/-- C2 (amended): in production mode the handler writes the given status
and a body equal to the fixed generic template, for every error (the
body is a constant independent of the error); for any other env value,
including absence, the developer rendering path is taken (the error is
logged and the status header written). -/
theorem defaultErrorHandler_production_amended (status : Int) (err : Err) (c : Ctx) :
    (c.env = some "production" →
      defaultErrorHandler status err c
        = ({ headerWrites := [status], bodyWrites := [BodyWrite.text prodErrorTmpl],
             logged := [] }, HandlerRet.ok))
    ∧ (c.env ≠ some "production" →
      (defaultErrorHandler status err c).1.logged = [err]
      ∧ (defaultErrorHandler status err c).1.headerWrites.head? = some status) := by
  constructor
  · intro h
    simp [defaultErrorHandler, h]
  · intro h
    by_cases hj : isJsonCT c.contentType
    · simp [defaultErrorHandler, h, hj]
    · by_cases hx : isXmlCT c.contentType
      · simp [defaultErrorHandler, h, hj, hx]
      · cases hv : c.velvetResult with
        | none => simp [defaultErrorHandler, h, hj, hx, hv]
        | some t => simp [defaultErrorHandler, h, hj, hx, hv]

/-- C2 witness: concrete production render. -/
theorem defaultErrorHandler_production_amended_witness :
    ((⟨some "production", "text/html", none⟩ : Ctx).env = some "production")
    ∧ defaultErrorHandler 500 (Err.base "x") ⟨some "production", "text/html", none⟩
        = ({ headerWrites := [500], bodyWrites := [BodyWrite.text prodErrorTmpl],
             logged := [] }, HandlerRet.ok) :=
  ⟨rfl, (defaultErrorHandler_production_amended 500 (Err.base "x")
    ⟨some "production", "text/html", none⟩).1 rfl⟩

/-- C2 counterexample: the production body is the fixed template, yet for
an error whose message is "Sorry" that body does contain the error
message text as a substring, refuting the claim that the body never
contains the message text for every error. -/
theorem defaultErrorHandler_production_contains_msg_cex :
    (defaultErrorHandler 500 (Err.base "Sorry") ⟨some "production", "text/html", none⟩).1.bodyWrites
      = [BodyWrite.text prodErrorTmpl]
    ∧ List.IsInfix (errMsg (Err.base "Sorry")).data prodErrorTmpl.data :=
  ⟨rfl, by decide⟩

/-- C3: in developer mode with a JSON content type, for an extracted
causal chain of two errors (outer first, its cause second), the handler
writes the status header and emits the two-field JSON document whose
record list is oldest-first: the inner record before the outer one. -/
theorem defaultErrorHandler_json_two_chain (status : Int) (outer inner : Err) (c : Ctx)
    (henv : c.env ≠ some "production") (hct : isJsonCT c.contentType = true)
    (hch : ErrorChain outer = [outer, inner]) :
    defaultErrorHandler status outer c
      = ({ headerWrites := [status],
           bodyWrites := [BodyWrite.jsonDoc [mkErrorStack inner, mkErrorStack outer] status],
           logged := [outer] }, HandlerRet.ok) := by
  simp [defaultErrorHandler, henv, hct, hch]

/-- C3 witness: a concrete two-element chain rendered as JSON. -/
theorem defaultErrorHandler_json_two_chain_witness :
    (((⟨none, "application/json", none⟩ : Ctx).env ≠ some "production")
      ∧ isJsonCT "application/json" = true
      ∧ ErrorChain (Err.causer "outer" (Err.causerNil "inner"))
          = [Err.causer "outer" (Err.causerNil "inner"), Err.causerNil "inner"])
    ∧ defaultErrorHandler 500 (Err.causer "outer" (Err.causerNil "inner"))
        ⟨none, "application/json", none⟩
      = ({ headerWrites := [500],
           bodyWrites := [BodyWrite.jsonDoc
             [mkErrorStack (Err.causerNil "inner"),
              mkErrorStack (Err.causer "outer" (Err.causerNil "inner"))] 500],
           logged := [Err.causer "outer" (Err.causerNil "inner")] }, HandlerRet.ok) :=
  ⟨⟨(fun h => nomatch h), rfl, rfl⟩,
   defaultErrorHandler_json_two_chain 500 (Err.causer "outer" (Err.causerNil "inner"))
     (Err.causerNil "inner") ⟨none, "application/json", none⟩ (fun h => nomatch h) rfl rfl⟩

/-- C4 (amended): for every chain entry, independently of the others,
the display record carries the entry message; `HasStack` is true exactly
when the entry exposes a Trace relation; a trace-less entry gets empty
trace text; a trace-bearing entry gets the formatted trace, which is
non-empty whenever the captured trace has at least one frame (an exposed
trace with zero frames formats to the empty string). -/
theorem mkErrorStack_per_entry_amended (e : Err) :
    (mkErrorStack e).Msg = errMsg e
    ∧ (mkErrorStack e).HasStack = isTracer e
    ∧ (isTracer e = false → (mkErrorStack e).Stack = "")
    ∧ (∀ t, traceOf e = some t →
        ((mkErrorStack e).Stack = formatTrace t
          ∧ (t ≠ [] → (mkErrorStack e).Stack ≠ ""))) := by
  cases htr : traceOf e with
  | none =>
    refine ⟨?_, ?_, ?_, ?_⟩
    · simp [mkErrorStack, htr]
    · simp [mkErrorStack, htr, isTracer]
    · intro _; simp [mkErrorStack, htr]
    · intro t ht; exact nomatch ht
  | some t0 =>
    refine ⟨?_, ?_, ?_, ?_⟩
    · simp [mkErrorStack, htr]
    · simp [mkErrorStack, htr, isTracer]
    · intro hfalse; rw [isTracer, htr] at hfalse; exact nomatch hfalse
    · intro t ht
      injection ht with ht'
      subst ht'
      refine ⟨by simp [mkErrorStack, htr], ?_⟩
      intro hne
      have hs : (mkErrorStack e).Stack = formatTrace t0 := by simp [mkErrorStack, htr]
      rw [hs]
      cases t0 with
      | nil => exact absurd rfl hne
      | cons f rest => exact formatTrace_ne_empty f rest

/-- C4 witness: a one-frame trace yields non-empty formatted text. -/
theorem mkErrorStack_per_entry_witness :
    traceOf (Err.traced "x" [7]) = some [7]
    ∧ (mkErrorStack (Err.traced "x" [7])).Stack = formatTrace [7]
    ∧ (mkErrorStack (Err.traced "x" [7])).Stack ≠ "" :=
  ⟨rfl,
   ((mkErrorStack_per_entry_amended (Err.traced "x" [7])).2.2.2 [7] rfl).1,
   ((mkErrorStack_per_entry_amended (Err.traced "x" [7])).2.2.2 [7] rfl).2
     (List.cons_ne_nil 7 [])⟩

/-- C4 counterexample: an entry exposing a Trace relation whose captured
trace has no frames gets `HasStack = true` but empty trace text,
refuting the claimed "non-empty trace text exactly when a Trace relation
is exposed". -/
theorem mkErrorStack_empty_trace_cex :
    isTracer (Err.traced "x" []) = true
    ∧ (mkErrorStack (Err.traced "x" [])).HasStack = true
    ∧ (mkErrorStack (Err.traced "x" [])).Stack = "" :=
  ⟨rfl, rfl, rfl⟩

/-- C5: on the developer HTML (default content-type) rendering path with
a successful template render, the handler ends by writing status 404
regardless of the status argument: the header-write sequence is the
initial status write followed by the hard-coded 404, so the final status
set on the response is 404 for every status value. -/
theorem defaultErrorHandler_html_writes_404 (status : Int) (err : Err) (c : Ctx) (t : String)
    (henv : c.env ≠ some "production") (hj : isJsonCT c.contentType = false)
    (hx : isXmlCT c.contentType = false) (hv : c.velvetResult = some t) :
    (defaultErrorHandler status err c).1.headerWrites = [status, 404]
    ∧ (defaultErrorHandler status err c).1.finalStatus = some 404 := by
  constructor
  · simp [defaultErrorHandler, henv, hj, hx, hv]
  · simp [defaultErrorHandler, henv, hj, hx, hv, Response.finalStatus]

/-- C5 witness: concrete developer HTML render with status 500. -/
theorem defaultErrorHandler_html_writes_404_witness :
    (((⟨none, "text/html", some "page"⟩ : Ctx).env ≠ some "production")
      ∧ isJsonCT "text/html" = false
      ∧ isXmlCT "text/html" = false
      ∧ (⟨none, "text/html", some "page"⟩ : Ctx).velvetResult = some "page")
    ∧ ((defaultErrorHandler 500 (Err.base "x") ⟨none, "text/html", some "page"⟩).1.headerWrites
        = [500, 404]
      ∧ (defaultErrorHandler 500 (Err.base "x") ⟨none, "text/html", some "page"⟩).1.finalStatus
        = some 404) :=
  ⟨⟨(fun h => nomatch h), rfl, rfl, rfl⟩,
   defaultErrorHandler_html_writes_404 500 (Err.base "x") ⟨none, "text/html", some "page"⟩
     "page" (fun h => nomatch h) rfl rfl rfl⟩

/-- C6: on a recovered panic with value v, the middleware captures
exactly one packet, its top-level message is the stringification of v,
and the original panic value v is re-raised after submission — the
panic is never suppressed. -/
theorem Sentry_panic_path (symtab : Nat → Option (String × Int)) (prefixes : List String)
    (panicsOnly : Bool) (v : GoVal) :
    (Sentry symtab prefixes panicsOnly (.panicked v)).1
        = [panicPacket (goSprint v) prefixes]
    ∧ ((Sentry symtab prefixes panicsOnly (.panicked v)).1.map Packet.message) = [goSprint v]
    ∧ (Sentry symtab prefixes panicsOnly (.panicked v)).2 = .panicked v :=
  ⟨rfl, rfl, rfl⟩

/-- C7 (code bug evaluation): with panicsOnly false and a wrapped
handler returning a plain error (no Cause method), `ErrorChain` is
empty, so `buildErrPacket` builds no packet — the Go code panics on
`chain[len(chain)-1]` — and the middleware, through its own deferred
recover, submits one packet for the runtime index error rather than a
report whose top-level message is the root error message, then panics
instead of returning. -/
theorem Sentry_plain_error_crash_eval :
    buildErrPacket symtab0 (Err.base "boom") [] = none
    ∧ Sentry symtab0 [] false (.ok (some (Err.base "boom")))
        = ([panicPacket "runtime error: index out of range" []],
           MwResult.panicked GoVal.runtimeIndexError)
    ∧ errMsg (Err.base "boom") = "boom" :=
  ⟨rfl, rfl, rfl⟩

/-- C8: for a trace-bearing error, the Sentry stack builder always
succeeds, emits exactly one frame per program counter the symbol table
resolves (unresolvable counters are silently skipped), and emits the
resolvable frames in the reverse of the captured trace order. -/
theorem buildSentryStackTrace_spec (symtab : Nat → Option (String × Int)) (e : Err)
    (prefixes : List String) (t : List Nat) (h : traceOf e = some t) :
    ∃ fs, buildSentryStackTrace symtab e prefixes = some (ExcStack.frames fs)
      ∧ fs.length = (t.filter (fun f => (symtab (pc f)).isSome)).length
      ∧ fs.map SentryFrame.pc
          = ((t.filter (fun f => (symtab (pc f)).isSome)).map pc).reverse := by
  refine ⟨emitFrames symtab prefixes t.reverse, ?_, ?_, ?_⟩
  · simp [buildSentryStackTrace, h]
  · rw [emitFrames_length, List.filter_reverse, List.length_reverse]
  · rw [emitFrames_map_pc, List.filter_reverse, List.map_reverse]

/-- C8 witness: a synthetic two-frame trace with one resolvable and one
unresolvable counter yields exactly one emitted frame. -/
theorem buildSentryStackTrace_spec_witness :
    traceOf (Err.traced "x" [5, 9]) = some [5, 9]
    ∧ (([5, 9].filter (fun f => (symtab1 (pc f)).isSome)).length = 1)
    ∧ (∃ fs, buildSentryStackTrace symtab1 (Err.traced "x" [5, 9]) [] = some (ExcStack.frames fs)
        ∧ fs.length = (([5, 9].filter (fun f => (symtab1 (pc f)).isSome)).length)
        ∧ fs.map SentryFrame.pc
            = ((([5, 9].filter (fun f => (symtab1 (pc f)).isSome))).map pc).reverse) :=
  ⟨rfl, rfl, buildSentryStackTrace_spec symtab1 (Err.traced "x" [5, 9]) [] [5, 9] rfl⟩

/-- C10 (amended): for every request outcome of the wrapped handler, the
middleware either returns exactly the error value the wrapped handler
returned — the reporting step never substitutes a different one — or,
when packet construction hits the empty-chain runtime panic, it panics
instead of returning at all. -/
theorem Sentry_error_propagation_amended (symtab : Nat → Option (String × Int))
    (prefixes : List String) (panicsOnly : Bool) (oerr : Option Err) :
    (Sentry symtab prefixes panicsOnly (.ok oerr)).2 = .ret oerr
    ∨ (Sentry symtab prefixes panicsOnly (.ok oerr)).2 = .panicked .runtimeIndexError := by
  cases oerr with
  | none => exact Or.inl rfl
  | some e =>
    by_cases hp : panicsOnly
    · exact Or.inl (by simp [Sentry, hp])
    · cases h : buildErrPacket symtab e prefixes with
      | none => exact Or.inr (by simp [Sentry, hp, h])
      | some p => exact Or.inl (by simp [Sentry, hp, h])

/-- C10 counterexample: for a wrapped handler returning a plain error
with panicsOnly false, the middleware does not return that error — the
empty-chain runtime panic propagates instead. -/
theorem Sentry_crash_not_returned_cex :
    (Sentry symtab0 [] false (.ok (some (Err.base "oops")))).2
      ≠ MwResult.ret (some (Err.base "oops")) :=
  fun h => nomatch h
